import Mathlib

/-!
Verification of the Stargate bridge helper (`stargate/stargate.py`).

The Python module is sequential glue over blockchain RPC calls.  We embed it
shallowly: every underlying network query is a field of an `EVMNetwork` record
returning `Except BridgeError _` (any RPC call may raise), and the
state-changing operations additionally return the list of transactions the
code submitted, so that framing claims ("no transaction issued") are
expressible.  Python `int` values read from the chain (balances, fees, gas)
are `Nat`; the user-supplied `amount` is `Nat`; the float `slippage` is a
rational number; Python `int(x)` (truncation toward zero) is `pyInt`.
-/

/-- Transaction statuses polled from the chain.  Modelled from the spec:
`network/network.py` (the `TransactionStatus` enum) is not part of the sources
here; the spec's `TransactionOutcome` lists exactly Success, Failed and
NotFound(timeout).  The extra constructor `OTHER` stands for any further
status value a network layer could report, so that totality of the result
check over unrecognized statuses is expressible. -/
inductive TransactionStatus where
  | NOT_FOUND
  | SUCCESS
  | FAILED
  | OTHER
deriving DecidableEq, Repr

/-- Errors: the two raised by this module (`base.errors.TransactionFailed`,
`base.errors.TransactionNotFound`) plus a constructor for any exception
escaping an underlying RPC query. -/
inductive BridgeError where
  | TransactionNotFound (msg : String)
  | TransactionFailed (msg : String)
  | NetworkError (msg : String)
deriving DecidableEq, Repr

/-- Opaque gas parameters returned by `get_transaction_gas_params` and spread
into the transaction dictionary. -/
structure GasParams where
  params : List (String × Nat)
deriving DecidableEq, Repr

/-- The arguments of the `swap(...)` contract call built in
`_send_swap_transaction`, in source order. -/
structure SwapCall where
  dst_chain_id : Nat
  src_pool_id : Nat
  dst_pool_id : Nat
  refund_address : String
  amount : Nat
  min_amount : Int
  extra_gas : Nat
  dust_amount : Nat
  dust_address : String
  to_address : String
  fee_payload : String
deriving DecidableEq, Repr

/-- The transaction dictionary passed to `build_transaction` together with the
contract call. -/
structure SwapTx where
  call : SwapCall
  from_address : String
  value : Nat
  gas : Nat
  gas_params : GasParams
  nonce : Nat
deriving DecidableEq, Repr

/-- A state-changing transaction submitted to the source network: either a
stablecoin approval (token, spender, amount) or the Stargate swap. -/
inductive Tx where
  | approval (token : String) (spender : String) (amount : Nat)
  | swap (t : SwapTx)
deriving DecidableEq, Repr

/-- The `EVMNetwork` collaborator.  Every query the Python code performs
against it is a field; each returns `Except BridgeError _` because any RPC
call may raise. -/
structure EVMNetwork where
  name : String
  stargate_router_address : String
  stargate_chain_id : Nat
  get_balance : String → Except BridgeError Nat
  get_token_balance : String → String → Except BridgeError Nat
  get_token_allowance : String → String → String → Except BridgeError Nat
  get_approve_gas_limit : Except BridgeError Nat
  get_current_gas : Except BridgeError Nat
  quote_layer_zero_fee :
    Nat → Nat → String → String → Nat × Nat × String → Except BridgeError Nat
  get_nonce : String → Except BridgeError Nat
  get_transaction_gas_params : Except BridgeError GasParams
  approve_token_usage :
    String → String → String → Nat → Except BridgeError String
  send_raw_transaction : SwapTx → Except BridgeError String
  wait_for_transaction : String → Except BridgeError TransactionStatus

/-- `utility.Stablecoin` (immutable configuration). -/
structure Stablecoin where
  contract_address : String
  symbol : String
  stargate_pool_id : Nat
deriving DecidableEq, Repr

/-- `eth_account` local account: address plus signing key. -/
structure LocalAccount where
  address : String
  key : String
deriving DecidableEq, Repr

/-- Modelled from the spec: `stargate/constants.py` (`StargateConstants`) is
not part of the sources here.  Per the spec, the swap gas limit is randomized
with a network-specific maximum ("max randomized swap gas limit
(network-specific constant)"), so a constants table carries the randomized
draw and its maximum, with the draw never exceeding the maximum. -/
structure StargateConstants where
  get_max_randomized_swap_gas_limit : String → Nat
  get_randomized_swap_gas_limit : String → Nat
  randomized_le_max : ∀ name : String,
    get_randomized_swap_gas_limit name ≤ get_max_randomized_swap_gas_limit name

deriving instance DecidableEq for Except

/-- Python `int(x)`: truncation toward zero. -/
def pyInt (q : ℚ) : ℤ :=
  if 0 ≤ q then q.floor else q.ceil

/-- On nonnegative rationals, Python truncation is the floor. -/
theorem pyInt_of_nonneg {q : ℚ} (h : 0 ≤ q) : pyInt q = ⌊q⌋ := by
  unfold pyInt
  rw [if_pos h, Rat.floor_def' q, Rat.floor_def]

namespace StargateUtils

/-- `StargateUtils.estimate_layerzero_swap_fee`: queries
`quoteLayerZeroFee(dst chainId, 1, dst address, "0x", [0, 0, "0x"])` on the
source network's router contract and returns the native-token fee. -/
def estimate_layerzero_swap_fee (src_network dst_network : EVMNetwork)
    (dst_address : String) : Except BridgeError Nat :=
  src_network.quote_layer_zero_fee dst_network.stargate_chain_id 1 dst_address
    "0x" (0, 0, "0x")

/-- `StargateUtils.estimate_swap_gas_price`:
(max randomized swap gas limit + approve gas limit) × current gas price. -/
def estimate_swap_gas_price (SC : StargateConstants) (network : EVMNetwork) :
    Except BridgeError Nat :=
  match network.get_approve_gas_limit with
  | .error e => .error e
  | .ok approve_gas_limit =>
    let max_overall_gas_limit :=
      SC.get_max_randomized_swap_gas_limit network.name + approve_gas_limit
    match network.get_current_gas with
    | .error e => .error e
    | .ok gas => .ok (max_overall_gas_limit * gas)

/-- `StargateUtils.is_enough_native_token_balance_for_stargate_swap_fee`:
account balance > estimated gas price + LayerZero fee. -/
def is_enough_native_token_balance_for_stargate_swap_fee
    (SC : StargateConstants) (src_network dst_network : EVMNetwork)
    (address : String) : Except BridgeError Bool :=
  match src_network.get_balance address with
  | .error e => .error e
  | .ok account_balance =>
    match estimate_swap_gas_price SC src_network with
    | .error e => .error e
    | .ok gas_price =>
      match estimate_layerzero_swap_fee src_network dst_network address with
      | .error e => .error e
      | .ok layerzero_fee =>
        .ok (decide (gas_price + layerzero_fee < account_balance))

end StargateUtils

/-- The `StargateBridgeHelper` constructor state. -/
structure StargateBridgeHelper where
  account : LocalAccount
  src_network : EVMNetwork
  dst_network : EVMNetwork
  src_stablecoin : Stablecoin
  dst_stablecoin : Stablecoin
  amount : Nat
  slippage : ℚ

/-- Line 110 of the source:
`amount_with_slippage = self.amount - int(self.amount * self.slippage)`. -/
def amount_with_slippage (amount : Nat) (slippage : ℚ) : ℤ :=
  (amount : ℤ) - pyInt ((amount : ℚ) * slippage)

namespace StargateBridgeHelper

/-- `StargateBridgeHelper._check_tx_result`: raises `TransactionNotFound` on
`NOT_FOUND`, `TransactionFailed` on `FAILED`, logs on `SUCCESS`.  Returns the
outcome together with the log messages emitted. -/
def check_tx_result (result : TransactionStatus) (name : String) :
    Except BridgeError Unit × List String :=
  if result = TransactionStatus.NOT_FOUND then
    (.error (.TransactionNotFound
      (name ++ " transaction can't be found in the blockchain" ++
        "for a log time. Consider changing fee settings")), [])
  else if result = TransactionStatus.FAILED then
    (.error (.TransactionFailed (name ++ " transaction failed")), [])
  else if result = TransactionStatus.SUCCESS then
    (.ok (), [name ++ " transaction succeed"])
  else
    (.ok (), [])

/-- The sign-and-send tail of `_send_swap_transaction` (source lines
137-140): submitting `tx` returns its hash and records the one swap
transaction issued. -/
def submit_swap (net : EVMNetwork) (tx : SwapTx) :
    Except BridgeError String × List Tx :=
  match net.send_raw_transaction tx with
  | .error e => (.error e, [])
  | .ok tx_hash => (.ok tx_hash, [Tx.swap tx])

/-- `StargateBridgeHelper._send_swap_transaction`: quotes the LayerZero fee,
reads nonce and gas params, builds the `swap(...)` call, signs and submits it.
Second component: transactions submitted. -/
def send_swap_transaction (SC : StargateConstants)
    (self : StargateBridgeHelper) : Except BridgeError String × List Tx :=
  match StargateUtils.estimate_layerzero_swap_fee self.src_network
      self.dst_network self.account.address with
  | .error e => (.error e, [])
  | .ok layerzero_fee =>
    match self.src_network.get_nonce self.account.address with
    | .error e => (.error e, [])
    | .ok nonce =>
      match self.src_network.get_transaction_gas_params with
      | .error e => (.error e, [])
      | .ok gas_params =>
        let tx : SwapTx :=
          { call :=
              { dst_chain_id := self.dst_network.stargate_chain_id
                src_pool_id := self.src_stablecoin.stargate_pool_id
                dst_pool_id := self.dst_stablecoin.stargate_pool_id
                refund_address := self.account.address
                amount := self.amount
                min_amount := amount_with_slippage self.amount self.slippage
                extra_gas := 0
                dust_amount := 0
                dust_address := "0x"
                to_address := self.account.address
                fee_payload := "0x" }
            from_address := self.account.address
            value := layerzero_fee
            gas := SC.get_randomized_swap_gas_limit self.src_network.name
            gas_params := gas_params
            nonce := nonce }
        submit_swap self.src_network tx

/-- `StargateBridgeHelper._is_bridge_possible`: native-token feasibility
check, then stablecoin balance ≥ amount. -/
def is_bridge_possible (SC : StargateConstants)
    (self : StargateBridgeHelper) : Except BridgeError Bool :=
  match StargateUtils.is_enough_native_token_balance_for_stargate_swap_fee SC
      self.src_network self.dst_network self.account.address with
  | .error e => .error e
  | .ok enough =>
    if enough = false then .ok false
    else
      match self.src_network.get_token_balance
          self.src_stablecoin.contract_address self.account.address with
      | .error e => .error e
      | .ok stablecoin_balance =>
        if stablecoin_balance < self.amount then .ok false else .ok true

/-- `StargateBridgeHelper._approve_stablecoin_usage`: reads the router's
allowance; if it is at least `amount`, returns with no transaction; otherwise
submits one approval transaction, waits for it and checks its result. -/
def approve_stablecoin_usage (self : StargateBridgeHelper) (amount : Nat) :
    Except BridgeError Unit × List Tx :=
  match self.src_network.get_token_allowance
      self.src_stablecoin.contract_address self.account.address
      self.src_network.stargate_router_address with
  | .error e => (.error e, [])
  | .ok allowance =>
    if amount ≤ allowance then (.ok (), [])
    else
      match self.src_network.approve_token_usage self.account.key
          self.src_stablecoin.contract_address
          self.src_network.stargate_router_address amount with
      | .error e => (.error e, [])
      | .ok tx_hash =>
        let txs := [Tx.approval self.src_stablecoin.contract_address
          self.src_network.stargate_router_address amount]
        match self.src_network.wait_for_transaction tx_hash with
        | .error e => (.error e, txs)
        | .ok result =>
          ((check_tx_result result
            ("Approve " ++ self.src_stablecoin.symbol ++ " usage")).fst, txs)

/-- `StargateBridgeHelper.make_bridge`: feasibility check (returning `False`
on rejection), approval, swap submission, confirmation.  The Python success
path falls off the end of the function, returning `None`: the result type is
`Option Bool`, with `none` for that implicit `None`. -/
def make_bridge (SC : StargateConstants) (self : StargateBridgeHelper) :
    Except BridgeError (Option Bool) × List Tx :=
  match is_bridge_possible SC self with
  | .error e => (.error e, [])
  | .ok possible =>
    if possible = false then (.ok (some false), [])
    else
      match approve_stablecoin_usage self self.amount with
      | (.error e, txs) => (.error e, txs)
      | (.ok _, txs1) =>
        match send_swap_transaction SC self with
        | (.error e, txs2) => (.error e, txs1 ++ txs2)
        | (.ok tx_hash, txs2) =>
          match self.src_network.wait_for_transaction tx_hash with
          | .error e => (.error e, txs1 ++ txs2)
          | .ok result =>
            match (check_tx_result result "Stargate swap").fst with
            | .error e => (.error e, txs1 ++ txs2)
            | .ok _ => (.ok none, txs1 ++ txs2)

end StargateBridgeHelper

/-! ### Concrete test fixtures

A fully-succeeding network mirroring the spec's end-to-end scenario
(balance 100, gas cost 10, relay fee 5, stablecoin balance 50, allowance 50,
amount 50). -/

/-- Swap gas limit table: maximum 8, randomized draw 6. -/
def testSC : StargateConstants where
  get_max_randomized_swap_gas_limit := fun _ => 8
  get_randomized_swap_gas_limit := fun _ => 6
  randomized_le_max := fun _ => by norm_num

def okNet : EVMNetwork where
  name := "Ethereum"
  stargate_router_address := "0xrouter"
  stargate_chain_id := 101
  get_balance := fun _ => .ok 100
  get_token_balance := fun _ _ => .ok 50
  get_token_allowance := fun _ _ _ => .ok 50
  get_approve_gas_limit := .ok 2
  get_current_gas := .ok 1
  quote_layer_zero_fee := fun _ _ _ _ _ => .ok 5
  get_nonce := fun _ => .ok 7
  get_transaction_gas_params := .ok ⟨[("maxFeePerGas", 3)]⟩
  approve_token_usage := fun _ _ _ _ => .ok "0xapprovehash"
  send_raw_transaction := fun _ => .ok "0xswaphash"
  wait_for_transaction := fun _ => .ok .SUCCESS

def okHelper : StargateBridgeHelper where
  account := ⟨"0xme", "secretkey"⟩
  src_network := okNet
  dst_network := { okNet with name := "Polygon", stargate_chain_id := 102 }
  src_stablecoin := ⟨"0xusdc", "USDC", 1⟩
  dst_stablecoin := ⟨"0xusdt", "USDT", 2⟩
  amount := 50
  slippage := 1/100

example : StargateUtils.estimate_swap_gas_price testSC okNet = .ok 10 := by rfl
example : StargateUtils.is_enough_native_token_balance_for_stargate_swap_fee
    testSC okNet okNet "0xme" = .ok true := by rfl
example : StargateBridgeHelper.is_bridge_possible testSC okHelper = .ok true := by rfl
example : StargateBridgeHelper.approve_stablecoin_usage okHelper 50 = (.ok (), []) := by rfl
example : (StargateBridgeHelper.send_swap_transaction testSC okHelper).fst
    = .ok "0xswaphash" := by rfl
example : (StargateBridgeHelper.make_bridge testSC okHelper).fst = .ok none := by rfl
example : amount_with_slippage 50 (1/100) = 50 := by
  rw [amount_with_slippage, pyInt_of_nonneg (by norm_num)]
  have h : ⌊((50 : ℕ) : ℚ) * (1/100)⌋ = 0 := by
    rw [Int.floor_eq_zero_iff]
    constructor <;> norm_num
  rw [h]
  norm_num

/-- True exactly on a raised `TransactionNotFound`. -/
def isTransactionNotFoundErr : Except BridgeError Unit → Bool
  | .error (BridgeError.TransactionNotFound _) => true
  | _ => false

/-- True exactly on a raised `TransactionFailed`. -/
def isTransactionFailedErr : Except BridgeError Unit → Bool
  | .error (BridgeError.TransactionFailed _) => true
  | _ => false

/-- `okNet` with the confirmation poll answering with a given status. -/
def waitNet (s : TransactionStatus) : EVMNetwork :=
  { okNet with wait_for_transaction := fun _ => .ok s }

/-- Helper whose allowance is zero (so an approval is submitted) and whose
confirmation poll answers `s`. -/
def approveHelperAt (s : TransactionStatus) : StargateBridgeHelper :=
  { okHelper with
    src_network := { waitNet s with get_token_allowance := fun _ _ _ => .ok 0 } }

/-- Helper whose allowance already suffices (approval skipped) and whose
confirmation poll answers `s` for the swap transaction. -/
def swapHelperAt (s : TransactionStatus) : StargateBridgeHelper :=
  { okHelper with src_network := waitNet s }

/-- C2: for amounts a > 0 and slippage s ∈ [0,1), the minimum-acceptable
amount of the swap equals a − ⌊a·s⌋ and lies between 0 and a. -/
theorem amount_with_slippage_spec (a : ℕ) (s : ℚ)
    (ha : 0 < a) (hs0 : 0 ≤ s) (hs1 : s < 1) :
    amount_with_slippage a s = (a : ℤ) - ⌊(a : ℚ) * s⌋ ∧
    0 ≤ amount_with_slippage a s ∧ amount_with_slippage a s ≤ (a : ℤ) := by
  have hq0 : (0:ℚ) ≤ (a:ℚ) := by positivity
  have hnn : (0:ℚ) ≤ (a:ℚ) * s := mul_nonneg hq0 hs0
  have heq : amount_with_slippage a s = (a : ℤ) - ⌊(a : ℚ) * s⌋ := by
    rw [amount_with_slippage, pyInt_of_nonneg hnn]
  have hle : (a:ℚ) * s ≤ (a:ℚ) := by nlinarith
  have hfl_le : ⌊(a : ℚ) * s⌋ ≤ (a : ℤ) := by
    have h := Int.floor_le_floor hle
    rwa [Int.floor_natCast] at h
  have hfl_nn : (0:ℤ) ≤ ⌊(a : ℚ) * s⌋ := Int.le_floor.mpr (by exact_mod_cast hnn)
  exact ⟨heq, by rw [heq]; omega, by rw [heq]; omega⟩

/-- Witness for C2 at a = 10, s = 3/10. -/
theorem amount_with_slippage_spec_witness :
    amount_with_slippage 10 (3/10) = ((10:ℕ) : ℤ) - ⌊((10:ℕ) : ℚ) * (3/10)⌋ ∧
    0 ≤ amount_with_slippage 10 (3/10) ∧
    amount_with_slippage 10 (3/10) ≤ ((10:ℕ) : ℤ) :=
  amount_with_slippage_spec 10 (3/10) (by norm_num) (by norm_num) (by norm_num)

/-- C10: on any status other than `NOT_FOUND`, `FAILED` and `SUCCESS`, the
transaction-result check returns normally, raising nothing and logging
nothing. -/
theorem check_tx_result_total_on_unknown (s : TransactionStatus) (name : String)
    (h1 : s ≠ TransactionStatus.NOT_FOUND) (h2 : s ≠ TransactionStatus.FAILED)
    (h3 : s ≠ TransactionStatus.SUCCESS) :
    StargateBridgeHelper.check_tx_result s name = (.ok (), []) := by
  unfold StargateBridgeHelper.check_tx_result
  rw [if_neg h1, if_neg h2, if_neg h3]

/-- Witness for C10 at the unrecognized status `OTHER`. -/
theorem check_tx_result_total_on_unknown_witness :
    StargateBridgeHelper.check_tx_result TransactionStatus.OTHER "Stargate swap"
      = (.ok (), []) :=
  check_tx_result_total_on_unknown TransactionStatus.OTHER "Stargate swap"
    (by decide) (by decide) (by decide)

/-- C4: the result check raises `TransactionNotFound` exactly on status
`NOT_FOUND`, `TransactionFailed` exactly on `FAILED`, and completes without
raising on `SUCCESS`; both the approval path and the swap confirmation path
route their polled status through this check. -/
theorem check_tx_result_error_classification (s : TransactionStatus) (name : String) :
    (isTransactionNotFoundErr (StargateBridgeHelper.check_tx_result s name).fst = true
      ↔ s = TransactionStatus.NOT_FOUND) ∧
    (isTransactionFailedErr (StargateBridgeHelper.check_tx_result s name).fst = true
      ↔ s = TransactionStatus.FAILED) ∧
    (s = TransactionStatus.SUCCESS →
      (StargateBridgeHelper.check_tx_result s name).fst = .ok ()) ∧
    ((approveHelperAt s).approve_stablecoin_usage 50
      = ((StargateBridgeHelper.check_tx_result s "Approve USDC usage").fst,
         [Tx.approval "0xusdc" "0xrouter" 50])) ∧
    ((swapHelperAt s).make_bridge testSC).fst
      = ((StargateBridgeHelper.check_tx_result s "Stargate swap").fst).map
          (fun _ => (none : Option Bool)) := by
  cases s <;>
    refine ⟨?_, ?_, ?_, ?_, ?_⟩ <;>
      first
        | rfl
        | simp [StargateBridgeHelper.check_tx_result,
            isTransactionNotFoundErr, isTransactionFailedErr]

/-- Witness for C4 at the status `FAILED` and the swap's name. -/
theorem check_tx_result_error_classification_witness :
    (isTransactionNotFoundErr
        (StargateBridgeHelper.check_tx_result TransactionStatus.FAILED "Stargate swap").fst = true
      ↔ TransactionStatus.FAILED = TransactionStatus.NOT_FOUND) ∧
    (isTransactionFailedErr
        (StargateBridgeHelper.check_tx_result TransactionStatus.FAILED "Stargate swap").fst = true
      ↔ TransactionStatus.FAILED = TransactionStatus.FAILED) ∧
    (TransactionStatus.FAILED = TransactionStatus.SUCCESS →
      (StargateBridgeHelper.check_tx_result TransactionStatus.FAILED "Stargate swap").fst = .ok ()) ∧
    ((approveHelperAt TransactionStatus.FAILED).approve_stablecoin_usage 50
      = ((StargateBridgeHelper.check_tx_result TransactionStatus.FAILED "Approve USDC usage").fst,
         [Tx.approval "0xusdc" "0xrouter" 50])) ∧
    ((swapHelperAt TransactionStatus.FAILED).make_bridge testSC).fst
      = ((StargateBridgeHelper.check_tx_result TransactionStatus.FAILED "Stargate swap").fst).map
          (fun _ => (none : Option Bool)) :=
  check_tx_result_error_classification TransactionStatus.FAILED "Stargate swap"

/-- C3: when its queries succeed, the native-balance check returns exactly
`balance > gasCost + relayFee`; it is false whenever balance ≤ gasCost +
relayFee (equality included) and true otherwise. -/
theorem is_enough_native_balance_boundary
    (SC : StargateConstants) (src dst : EVMNetwork) (address : String)
    (bal ag g fee : ℕ)
    (hbal : src.get_balance address = .ok bal)
    (hag : src.get_approve_gas_limit = .ok ag)
    (hg : src.get_current_gas = .ok g)
    (hfee : StargateUtils.estimate_layerzero_swap_fee src dst address = .ok fee) :
    (StargateUtils.is_enough_native_token_balance_for_stargate_swap_fee SC src dst address
      = .ok (decide
          ((SC.get_max_randomized_swap_gas_limit src.name + ag) * g + fee < bal))) ∧
    (bal ≤ (SC.get_max_randomized_swap_gas_limit src.name + ag) * g + fee →
      StargateUtils.is_enough_native_token_balance_for_stargate_swap_fee SC src dst address
        = .ok false) ∧
    (bal = (SC.get_max_randomized_swap_gas_limit src.name + ag) * g + fee →
      StargateUtils.is_enough_native_token_balance_for_stargate_swap_fee SC src dst address
        = .ok false) ∧
    ((SC.get_max_randomized_swap_gas_limit src.name + ag) * g + fee < bal →
      StargateUtils.is_enough_native_token_balance_for_stargate_swap_fee SC src dst address
        = .ok true) := by
  have hmain :
      StargateUtils.is_enough_native_token_balance_for_stargate_swap_fee SC src dst address
        = .ok (decide
            ((SC.get_max_randomized_swap_gas_limit src.name + ag) * g + fee < bal)) := by
    unfold StargateUtils.is_enough_native_token_balance_for_stargate_swap_fee
      StargateUtils.estimate_swap_gas_price
    rw [hbal, hag, hg, hfee]
  refine ⟨hmain, fun h => ?_, fun h => ?_, fun h => ?_⟩
  · rw [hmain, decide_eq_false (by omega)]
  · rw [hmain, decide_eq_false (by omega)]
  · rw [hmain, decide_eq_true h]

/-- Witness for C3 at the boundary: balance 15 = gas cost 10 + relay fee 5
yields false. -/
theorem is_enough_native_balance_boundary_witness :
    StargateUtils.is_enough_native_token_balance_for_stargate_swap_fee testSC
      { okNet with get_balance := fun _ => .ok 15 } okNet "0xme" = .ok false :=
  (is_enough_native_balance_boundary testSC
    { okNet with get_balance := fun _ => .ok 15 } okNet "0xme" 15 2 1 5
    rfl rfl rfl rfl).2.2.1 (by decide)

/-- C1: if the feasibility check fails — native balance not above gas cost
plus relay fee, or stablecoin balance below the amount — `make_bridge`
returns `False` without raising and without submitting any transaction. -/
theorem make_bridge_infeasible_returns_false
    (SC : StargateConstants) (self : StargateBridgeHelper)
    (bal ag g fee sb : ℕ)
    (hbal : self.src_network.get_balance self.account.address = .ok bal)
    (hag : self.src_network.get_approve_gas_limit = .ok ag)
    (hg : self.src_network.get_current_gas = .ok g)
    (hfee : StargateUtils.estimate_layerzero_swap_fee self.src_network
      self.dst_network self.account.address = .ok fee)
    (hsb : self.src_network.get_token_balance self.src_stablecoin.contract_address
      self.account.address = .ok sb)
    (hfail : bal ≤ (SC.get_max_randomized_swap_gas_limit self.src_network.name + ag) * g + fee
      ∨ sb < self.amount) :
    StargateBridgeHelper.make_bridge SC self = (.ok (some false), []) := by
  have henough :
      StargateUtils.is_enough_native_token_balance_for_stargate_swap_fee SC
        self.src_network self.dst_network self.account.address
        = .ok (decide
            ((SC.get_max_randomized_swap_gas_limit self.src_network.name + ag) * g + fee
              < bal)) := by
    unfold StargateUtils.is_enough_native_token_balance_for_stargate_swap_fee
      StargateUtils.estimate_swap_gas_price
    rw [hbal, hag, hg, hfee]
  unfold StargateBridgeHelper.make_bridge StargateBridgeHelper.is_bridge_possible
  rw [henough, hsb]
  by_cases h1 :
      (SC.get_max_randomized_swap_gas_limit self.src_network.name + ag) * g + fee < bal
  · rcases hfail with h | h
    · omega
    · rw [decide_eq_true h1]
      simp [if_neg, Nat.lt_irrefl, h]
  · rw [decide_eq_false h1]
    simp

/-- Witness for C1: the spec's scenario stablecoinBalance = 49, amount = 50. -/
theorem make_bridge_infeasible_returns_false_witness :
    StargateBridgeHelper.make_bridge testSC
      { okHelper with
        src_network := { okNet with get_token_balance := fun _ _ => .ok 49 } }
      = (.ok (some false), []) :=
  make_bridge_infeasible_returns_false testSC
    { okHelper with
      src_network := { okNet with get_token_balance := fun _ _ => .ok 49 } }
    100 2 1 5 49 rfl rfl rfl rfl rfl (Or.inr (by decide))

/-- C5: if the current allowance covers the amount, the approval step issues
no transaction and returns normally; otherwise it submits exactly one
approval transaction and blocks on its confirmation, routing the polled
status through the result check. -/
theorem approve_stablecoin_usage_frame
    (self : StargateBridgeHelper) (amount al : ℕ) (txh : String)
    (st : TransactionStatus)
    (hal : self.src_network.get_token_allowance self.src_stablecoin.contract_address
      self.account.address self.src_network.stargate_router_address = .ok al) :
    (amount ≤ al → self.approve_stablecoin_usage amount = (.ok (), [])) ∧
    (al < amount →
      self.src_network.approve_token_usage self.account.key
        self.src_stablecoin.contract_address
        self.src_network.stargate_router_address amount = .ok txh →
      self.src_network.wait_for_transaction txh = .ok st →
      self.approve_stablecoin_usage amount =
        ((StargateBridgeHelper.check_tx_result st
            ("Approve " ++ self.src_stablecoin.symbol ++ " usage")).fst,
         [Tx.approval self.src_stablecoin.contract_address
            self.src_network.stargate_router_address amount])) := by
  constructor
  · intro hle
    unfold StargateBridgeHelper.approve_stablecoin_usage
    rw [hal]
    dsimp only
    rw [if_pos hle]
  · intro hlt happrove hwait
    unfold StargateBridgeHelper.approve_stablecoin_usage
    rw [hal]
    dsimp only
    rw [if_neg (by omega), happrove]
    dsimp only
    rw [hwait]

/-- Witness for C5: allowance 50 covers amount 50, no transaction issued. -/
theorem approve_stablecoin_usage_frame_witness :
    StargateBridgeHelper.approve_stablecoin_usage okHelper 50 = (.ok (), []) :=
  (approve_stablecoin_usage_frame okHelper 50 50 "0xapprovehash"
    TransactionStatus.SUCCESS rfl).1 (by decide)

/-- `okNet` whose native-balance lookup raises. -/
def badBalanceNet : EVMNetwork :=
  { okNet with get_balance := fun _ => .error (.NetworkError "balance query failed") }

/-- Counterexample to C6 as stated: when the balance lookup fails, the
native-balance check propagates the error instead of returning false. -/
theorem is_enough_native_balance_throws_on_query_failure :
    StargateUtils.is_enough_native_token_balance_for_stargate_swap_fee testSC
        badBalanceNet okNet "0xme"
      = .error (.NetworkError "balance query failed") ∧
    StargateUtils.is_enough_native_token_balance_for_stargate_swap_fee testSC
        badBalanceNet okNet "0xme" ≠ .ok false ∧
    StargateUtils.is_enough_native_token_balance_for_stargate_swap_fee testSC
        badBalanceNet okNet "0xme" ≠ .ok true :=
  ⟨rfl, by decide, by decide⟩

/-- C6 amended: the native-balance check has no handler of its own — a failure
of any underlying query (balance lookup, gas estimation components, fee
quote) propagates out as that error; only when every query succeeds does it
return a boolean. -/
theorem is_enough_native_balance_propagates_failure
    (SC : StargateConstants) (src dst : EVMNetwork) (address : String) :
    (∀ e, src.get_balance address = .error e →
      StargateUtils.is_enough_native_token_balance_for_stargate_swap_fee SC src dst address
        = .error e) ∧
    (∀ bal e, src.get_balance address = .ok bal →
      src.get_approve_gas_limit = .error e →
      StargateUtils.is_enough_native_token_balance_for_stargate_swap_fee SC src dst address
        = .error e) ∧
    (∀ bal ag e, src.get_balance address = .ok bal →
      src.get_approve_gas_limit = .ok ag →
      src.get_current_gas = .error e →
      StargateUtils.is_enough_native_token_balance_for_stargate_swap_fee SC src dst address
        = .error e) ∧
    (∀ bal ag g e, src.get_balance address = .ok bal →
      src.get_approve_gas_limit = .ok ag →
      src.get_current_gas = .ok g →
      StargateUtils.estimate_layerzero_swap_fee src dst address = .error e →
      StargateUtils.is_enough_native_token_balance_for_stargate_swap_fee SC src dst address
        = .error e) ∧
    (∀ bal ag g fee, src.get_balance address = .ok bal →
      src.get_approve_gas_limit = .ok ag →
      src.get_current_gas = .ok g →
      StargateUtils.estimate_layerzero_swap_fee src dst address = .ok fee →
      ∃ b, StargateUtils.is_enough_native_token_balance_for_stargate_swap_fee SC src dst address
        = .ok b) := by
  refine ⟨fun e h1 => ?_, fun bal e h1 h2 => ?_, fun bal ag e h1 h2 h3 => ?_,
    fun bal ag g e h1 h2 h3 h4 => ?_, fun bal ag g fee h1 h2 h3 h4 => ?_⟩ <;>
    unfold StargateUtils.is_enough_native_token_balance_for_stargate_swap_fee
      StargateUtils.estimate_swap_gas_price
  · rw [h1]
  · rw [h1, h2]
  · rw [h1, h2]
    dsimp only
    rw [h3]
  · rw [h1, h2]
    dsimp only
    rw [h3, h4]
  · rw [h1, h2]
    dsimp only
    rw [h3, h4]
    exact ⟨_, rfl⟩

/-- Witness for the amended C6: on the all-succeeding network the check
returns a boolean. -/
theorem is_enough_native_balance_propagates_failure_witness :
    ∃ b, StargateUtils.is_enough_native_token_balance_for_stargate_swap_fee testSC
      okNet okNet "0xme" = .ok b :=
  (is_enough_native_balance_propagates_failure testSC okNet okNet "0xme").2.2.2.2
    100 2 1 5 rfl rfl rfl rfl

/-- Any swap transaction submitted by `_send_swap_transaction` carries the
randomized swap gas limit for the source network as its gas limit. -/
theorem mem_submit_swap {net : EVMNetwork} {tx t : SwapTx}
    (ht : Tx.swap t ∈ (StargateBridgeHelper.submit_swap net tx).snd) : t = tx := by
  unfold StargateBridgeHelper.submit_swap at ht
  split at ht <;> simp_all

theorem send_swap_gas_eq (SC : StargateConstants) (self : StargateBridgeHelper)
    (t : SwapTx)
    (ht : Tx.swap t ∈ (StargateBridgeHelper.send_swap_transaction SC self).snd) :
    t.gas = SC.get_randomized_swap_gas_limit self.src_network.name := by
  unfold StargateBridgeHelper.send_swap_transaction at ht
  repeat' split at ht
  all_goals try simp_all
  rw [mem_submit_swap ht]

/-- C7: the estimated swap gas cost is (max randomized swap gas limit +
approval gas limit) × current gas price, and bounds from above the product of
the submitted swap transaction's actual gas limit with that gas price, for
every randomization outcome. -/
theorem estimate_swap_gas_price_upper_bound
    (SC : StargateConstants) (self : StargateBridgeHelper) (ag g : ℕ)
    (hag : self.src_network.get_approve_gas_limit = .ok ag)
    (hg : self.src_network.get_current_gas = .ok g) :
    StargateUtils.estimate_swap_gas_price SC self.src_network
      = .ok ((SC.get_max_randomized_swap_gas_limit self.src_network.name + ag) * g) ∧
    ∀ t : SwapTx,
      Tx.swap t ∈ (StargateBridgeHelper.send_swap_transaction SC self).snd →
      t.gas * g
        ≤ (SC.get_max_randomized_swap_gas_limit self.src_network.name + ag) * g := by
  constructor
  · unfold StargateUtils.estimate_swap_gas_price
    rw [hag]
    dsimp only
    rw [hg]
  · intro t ht
    rw [send_swap_gas_eq SC self t ht]
    exact Nat.mul_le_mul_right g
      (le_trans (SC.randomized_le_max self.src_network.name) (Nat.le_add_right _ ag))

/-- Witness for C7 on the concrete fixture: estimate (8 + 2) × 1 = 10. -/
theorem estimate_swap_gas_price_upper_bound_witness :
    StargateUtils.estimate_swap_gas_price testSC okHelper.src_network
      = .ok ((testSC.get_max_randomized_swap_gas_limit okHelper.src_network.name + 2) * 1) :=
  (estimate_swap_gas_price_upper_bound testSC okHelper 2 1 rfl rfl).1

/-- C8: when its reads succeed, the swap submission issues exactly one
state-changing transaction, whose `swap(...)` call carries the destination
chain id, the source and destination pool ids, the sender's address as refund
address, the full amount, the slippage-adjusted minimum, zero dust
parameters, the sender's address as recipient and an empty fee payload, and
whose native value is the freshly quoted relay fee. -/
theorem send_swap_transaction_builds_one_swap
    (SC : StargateConstants) (self : StargateBridgeHelper)
    (fee n : ℕ) (gp : GasParams) (txh : String)
    (hfee : StargateUtils.estimate_layerzero_swap_fee self.src_network
      self.dst_network self.account.address = .ok fee)
    (hn : self.src_network.get_nonce self.account.address = .ok n)
    (hgp : self.src_network.get_transaction_gas_params = .ok gp)
    (hsend : self.src_network.send_raw_transaction
      { call := { dst_chain_id := self.dst_network.stargate_chain_id
                  src_pool_id := self.src_stablecoin.stargate_pool_id
                  dst_pool_id := self.dst_stablecoin.stargate_pool_id
                  refund_address := self.account.address
                  amount := self.amount
                  min_amount := amount_with_slippage self.amount self.slippage
                  extra_gas := 0
                  dust_amount := 0
                  dust_address := "0x"
                  to_address := self.account.address
                  fee_payload := "0x" }
        from_address := self.account.address
        value := fee
        gas := SC.get_randomized_swap_gas_limit self.src_network.name
        gas_params := gp
        nonce := n } = .ok txh) :
    StargateBridgeHelper.send_swap_transaction SC self
      = (.ok txh,
         [Tx.swap
           { call := { dst_chain_id := self.dst_network.stargate_chain_id
                       src_pool_id := self.src_stablecoin.stargate_pool_id
                       dst_pool_id := self.dst_stablecoin.stargate_pool_id
                       refund_address := self.account.address
                       amount := self.amount
                       min_amount := amount_with_slippage self.amount self.slippage
                       extra_gas := 0
                       dust_amount := 0
                       dust_address := "0x"
                       to_address := self.account.address
                       fee_payload := "0x" }
             from_address := self.account.address
             value := fee
             gas := SC.get_randomized_swap_gas_limit self.src_network.name
             gas_params := gp
             nonce := n }]) := by
  unfold StargateBridgeHelper.send_swap_transaction
  rw [hfee]
  dsimp only
  rw [hn]
  dsimp only
  rw [hgp]
  dsimp only
  unfold StargateBridgeHelper.submit_swap
  rw [hsend]

/-- Witness for C8 on the concrete fixture. -/
theorem send_swap_transaction_builds_one_swap_witness :
    StargateBridgeHelper.send_swap_transaction testSC okHelper
      = (.ok "0xswaphash",
         [Tx.swap
           { call := { dst_chain_id := okHelper.dst_network.stargate_chain_id
                       src_pool_id := okHelper.src_stablecoin.stargate_pool_id
                       dst_pool_id := okHelper.dst_stablecoin.stargate_pool_id
                       refund_address := okHelper.account.address
                       amount := okHelper.amount
                       min_amount := amount_with_slippage okHelper.amount okHelper.slippage
                       extra_gas := 0
                       dust_amount := 0
                       dust_address := "0x"
                       to_address := okHelper.account.address
                       fee_payload := "0x" }
             from_address := okHelper.account.address
             value := 5
             gas := testSC.get_randomized_swap_gas_limit okHelper.src_network.name
             gas_params := ⟨[("maxFeePerGas", 3)]⟩
             nonce := 7 }]) :=
  send_swap_transaction_builds_one_swap testSC okHelper 5 7 ⟨[("maxFeePerGas", 3)]⟩
    "0xswaphash" rfl rfl rfl rfl

/-- C9: `make_bridge`, declared to return a boolean, yields `None` on its
successful completion path; an explicit `False` is returned only on
feasibility rejection, and no `.ok` outcome ever carries `True`. -/
theorem make_bridge_success_returns_none
    (SC : StargateConstants) (self : StargateBridgeHelper) :
    (∀ r, (StargateBridgeHelper.make_bridge SC self).fst = .ok r →
      r = none ∨ r = some false) ∧
    (∀ txh, StargateBridgeHelper.is_bridge_possible SC self = .ok true →
      (StargateBridgeHelper.approve_stablecoin_usage self self.amount).fst = .ok () →
      (StargateBridgeHelper.send_swap_transaction SC self).fst = .ok txh →
      self.src_network.wait_for_transaction txh
        = .ok TransactionStatus.SUCCESS →
      (StargateBridgeHelper.make_bridge SC self).fst = .ok none) := by
  constructor
  · intro r h
    unfold StargateBridgeHelper.make_bridge at h
    repeat' split at h
    all_goals simp_all
  · intro txh hposs happ hsend hwait
    unfold StargateBridgeHelper.make_bridge
    rw [hposs]
    dsimp only
    rw [if_neg (by simp)]
    rcases h1 : StargateBridgeHelper.approve_stablecoin_usage self self.amount
      with ⟨r1, t1⟩
    rw [h1] at happ
    simp only at happ
    subst happ
    rcases h2 : StargateBridgeHelper.send_swap_transaction SC self with ⟨r2, t2⟩
    rw [h2] at hsend
    simp only at hsend
    subst hsend
    dsimp only
    rw [hwait]
    simp [StargateBridgeHelper.check_tx_result]

/-- Witness for C9: the all-succeeding fixture completes with `none`. -/
theorem make_bridge_success_returns_none_witness :
    (StargateBridgeHelper.make_bridge testSC okHelper).fst = .ok none :=
  (make_bridge_success_returns_none testSC okHelper).2 "0xswaphash" rfl rfl rfl rfl
